import Mathlib

/-! Verification of the sequence-acquisition pipeline and related commands of the
microbiome-pipeline-amplicon repository, as a shallow embedding in Lean 4.

Modelling conventions, shared by every definition below:

* An external subprocess invocation (`subprocess.run`) is modelled as a total
  function from its arguments to a `ToolResult` (exit code plus captured
  stdout/stderr), supplied by an `Env` record.  A `check=True` call that would
  raise `subprocess.CalledProcessError` on a non-zero exit code is translated
  into an explicit test of the exit code at the call site, reproducing the
  `try/except subprocess.CalledProcessError` control flow of the Python source.
  OS-level spawn failures (`FileNotFoundError`) are outside this model; the CLI
  runs `check_dependencies` before the pipeline, which rules them out.
* The observable behaviour of a function is its event trace: `Event.msg` for a
  `print`/`click.echo`, `Event.run` for a subprocess invocation (with the exact
  argument vector built by the source), `Event.unlink` for a file deletion.
* The filesystem is a pair of a file list and a directory list; a file is a
  `(dir, name)` pair, so the `glob` patterns of the source (`*.sra`, `*.csi`,
  `*.vdbcache`, direct children only) become suffix tests on the name.
* `str(subprocess.CalledProcessError)` is reproduced by `cpeMessage`, which
  renders the command in python list repr followed by its exit status, and
  in particular never includes the captured stdout/stderr of the tool.
-/

/-- Result of one external command: exit code and captured stdout/stderr. -/
structure ToolResult where
  exitCode : Nat
  stdout : String
  stderr : String
deriving DecidableEq

/-- One file on disk, as the directory that directly contains it plus its name.
`glob` patterns of the form `dir/*.ext` become suffix tests on `name`. -/
structure FileEntry where
  dir : String
  name : String
deriving DecidableEq

/-- Filesystem state: the files present and the directories present. -/
structure FS where
  files : List FileEntry
  dirs : List String
deriving DecidableEq

/-- The external world: what each tool invocation of `modules/downloader.py`
returns, whether an `unlink` of a given file succeeds, which auxiliary files a
successful `prefetch` leaves next to the `.sra` blob, and which of the required
tools are missing (for `check_dependencies`). -/
structure Env where
  prefetch : String → String → ToolResult
  sraStat : String → ToolResult
  fasterqDry : String → ToolResult
  fasterqSingle : String → ToolResult
  fasterqPaired : String → ToolResult
  unlinkOk : String → String → Bool
  prefetchAux : String → List String
  missingTools : List String

/-- Observable events of a pipeline run: a printed message, a subprocess
invocation with its argument vector, or a file deletion. -/
inductive Event where
  | msg (text : String)
  | run (argv : List String)
  | unlink (dir name : String)
deriving DecidableEq

/-- Python `needle in hay` on strings: substring containment. -/
def strContains (hay needle : String) : Bool :=
  decide (needle.toList <:+: hay.toList)

/-- Python `s.endswith(suffix)`: suffix test, stated on the character lists so
that it evaluates by kernel reduction. -/
def strEndsWith (s suffix : String) : Bool :=
  decide (suffix.toList <:+ s.toList)

/-- Python `s.lower()`: character-wise lower-casing. -/
def strToLower (s : String) : String :=
  String.mk (s.toList.map Char.toLower)

/-- Python `s.strip()`: drop whitespace from both ends. -/
def strTrim (s : String) : String :=
  String.mk (((s.toList.dropWhile Char.isWhitespace).reverse.dropWhile
    Char.isWhitespace).reverse)

/-- Python `s.split(sep)` for a one-character separator, on character lists. -/
def splitCharList (sep : Char) : List Char → List String
  | [] => [""]
  | c :: rest =>
      match splitCharList sep rest with
      | [] => [String.mk [c]]
      | h :: t =>
          if c = sep then "" :: h :: t
          else String.mk (c :: h.toList) :: t

/-- Python string split on a comma separator. -/
def splitComma (s : String) : List String :=
  splitCharList (Char.ofNat 44) s.toList

/-- Python `repr` of a list of strings, as interpolated by an f-string. -/
def pyListRepr (argv : List String) : String :=
  "[" ++ String.intercalate ", " (argv.map (fun a => "\x27" ++ a ++ "\x27")) ++ "]"

/-- The text of `str(subprocess.CalledProcessError(code, argv))`: the command
and its exit status, and nothing else — no captured stdout or stderr. -/
def cpeMessage (argv : List String) (code : Nat) : String :=
  "Command \x27" ++ pyListRepr argv ++ "\x27 returned non-zero exit status "
    ++ toString code ++ "."

/-- Argument vector of the `prefetch` call in `download_single_sra`. -/
def prefetchArgv (accession outputDir : String) : List String :=
  ["prefetch", accession, "-O", outputDir]

/-- The deterministic archive-blob path `{output_dir}/{accession}/{accession}.sra`
built by `download_single_sra`. -/
def sraPath (outputDir accession : String) : String :=
  outputDir ++ "/" ++ accession ++ "/" ++ accession ++ ".sra"

/-- Argument vector of `fasterq-dump` in `convert_single_end`. -/
def singleArgv (sraFile outputDir accession : String) : List String :=
  ["fasterq-dump", sraFile, "--outdir", outputDir ++ "/" ++ accession,
   "--skip-technical", "--threads", "2"]

/-- Argument vector of `fasterq-dump` in `convert_paired_end`. -/
def pairedArgv (sraFile outputDir accession : String) : List String :=
  ["fasterq-dump", sraFile, "--outdir", outputDir ++ "/" ++ accession,
   "--split-files", "--threads", "2"]

/-- Embedding of `detect_paired_end_alt` of `modules/downloader.py`: run `fasterq-dump`
in dry-run mode (without `check=True`, so its exit code is irrelevant) and
look for both split-output tokens in stdout+stderr.  The `except Exception`
fallback of the source catches only OS-level spawn failures, which the
subprocess model excludes, so it has no counterpart here. -/
def detect_paired_end_alt (env : Env) (sraFile : String) : Bool × List Event :=
  let r := env.fasterqDry sraFile
  let output := r.stdout ++ r.stderr
  (strContains output "_1.fastq" && strContains output "_2.fastq",
   [Event.run ["fasterq-dump", "--split-3", "--dry-run", sraFile]])

/-- Embedding of `detect_paired_end` of `modules/downloader.py`: inspect `sra-stat` output
for paired-read markers; on a non-zero exit of `sra-stat` (caught by the
`except subprocess.CalledProcessError` clause), fall back to the dry-run
method. -/
def detect_paired_end (env : Env) (sraFile : String) : Bool × List Event :=
  let r := env.sraStat sraFile
  let ev := Event.run ["sra-stat", "--quick", "--xml", sraFile]
  if r.exitCode = 0 then
    (strContains r.stdout "read=\"2\"" || strContains r.stdout "R2", [ev])
  else
    let alt := detect_paired_end_alt env sraFile
    (alt.1, ev :: alt.2)

/-- Does the cleanup step delete this entry?  It must sit directly in the
per-accession directory, match one of the globbed patterns (`*.sra`, `*.csi`,
`*.vdbcache`), and its `unlink` must succeed. -/
def cleanupRemoves (env : Env) (dir : String) (e : FileEntry) : Bool :=
  e.dir == dir
    && (strEndsWith e.name ".sra" || strEndsWith e.name ".csi" || strEndsWith e.name ".vdbcache")
    && env.unlinkOk e.dir e.name

/-- Embedding of `cleanup_sra_files` of `modules/downloader.py`: best-effort deletion of the
`*.sra` blobs (logged, with a warning on failure) and then of the `*.csi` and
`*.vdbcache` cache files (silent) in the per-accession directory.  Since
`unlinkOk` is a function of the path, deleting each globbed file independently
is the same as filtering out every matching file whose deletion succeeds. -/
def cleanup_sra_files (env : Env) (outputDir accession : String) (fs : FS) :
    FS × List Event :=
  let dir := outputDir ++ "/" ++ accession
  let sras := fs.files.filter (fun e => e.dir == dir && strEndsWith e.name ".sra")
  let temps := fs.files.filter (fun e =>
    e.dir == dir && (strEndsWith e.name ".csi" || strEndsWith e.name ".vdbcache"))
  ({ fs with files := fs.files.filter (fun e => !(cleanupRemoves env dir e)) },
   (sras.map (fun e =>
      if env.unlinkOk e.dir e.name then
        [Event.unlink e.dir e.name,
         Event.msg ("🗑️  Eliminado: " ++ e.dir ++ "/" ++ e.name)]
      else
        [Event.msg ("⚠️  No se pudo eliminar " ++ e.dir ++ "/" ++ e.name)])).flatten
   ++ (temps.map (fun e =>
      if env.unlinkOk e.dir e.name then [Event.unlink e.dir e.name] else [])).flatten)

/-- Embedding of `download_single_sra` of `modules/downloader.py`.  The body is the
`try` block of the source: prefetch (check=True), paired-end detection, conversion
dispatch (check=True), cleanup, success message.  A non-zero exit of prefetch
or of the conversion tool raises `CalledProcessError`, which the `except`
clause of the source turns into the `"❌ Error con …"` message — skipping every
later step, in particular the cleanup. -/
def download_single_sra (env : Env) (accession outputDir : String) (fs : FS) :
    FS × List Event :=
  let startEv : List Event :=
    [Event.msg ("⬇️  Descargando " ++ accession ++ "..."),
     Event.run (prefetchArgv accession outputDir)]
  let rp := env.prefetch accession outputDir
  if rp.exitCode = 0 then
    let accDir := outputDir ++ "/" ++ accession
    let fs1 : FS := { fs with files :=
      fs.files ++ FileEntry.mk accDir (accession ++ ".sra")
        :: (env.prefetchAux accession).map (fun n => FileEntry.mk accDir n) }
    let sp := sraPath outputDir accession
    let det := detect_paired_end env sp
    let convArgv := if det.1 then pairedArgv sp outputDir accession
                    else singleArgv sp outputDir accession
    let evMid : List Event :=
      det.2 ++ [Event.msg ("🔍 " ++ accession ++ " detectado como " ++
                  (if det.1 then "Paired-End" else "Single-End")),
                Event.run convArgv]
    let rc := if det.1 then env.fasterqPaired sp else env.fasterqSingle sp
    if rc.exitCode = 0 then
      let cl := cleanup_sra_files env outputDir accession fs1
      (cl.1, startEv ++ evMid ++ cl.2 ++
        [Event.msg ("✅ " ++ accession ++ " descargado, convertido y limpiado")])
    else
      (fs1, startEv ++ evMid ++
        [Event.msg ("❌ Error con " ++ accession ++ ": " ++
          cpeMessage convArgv rc.exitCode)])
  else
    (fs, startEv ++
      [Event.msg ("❌ Error con " ++ accession ++ ": " ++
        cpeMessage (prefetchArgv accession outputDir) rp.exitCode)])

/-- An input table as parsed by `pd.read_csv`: the columns in file order, each
a name together with its cell values (`none` is a missing value, NaN). -/
structure Table where
  cols : List (String × List (Option String))
deriving DecidableEq

/-- The column-scan predicate of `download_sra_from_csv`:
`any(x in col.lower() for x in [accession, sra, run])`, each marker being a
string literal. -/
def isAccessionCol (name : String) : Bool :=
  ["accession", "sra", "run"].any (fun x => strContains (strToLower name) x)

/-- The scan of the source for the accession column: the first column whose
lower-cased name contains one of the three markers. -/
def findAccessionCol (table : Table) : Option (String × List (Option String)) :=
  table.cols.find? (fun c => isAccessionCol c.1)

/-- Embedding of `df[accession_col].dropna().unique()`: drop the missing values, keep the
first occurrence of each value in order. -/
def resolveAccessions (col : List (Option String)) : List String :=
  (col.filterMap id).eraseDups

/-- The per-accession loop of `download_sra_from_csv`: each accession is
stripped and processed by `download_single_sra`; since that function handles
its own tool failures, the loop always continues to the next accession. -/
def processAccessions (env : Env) (outputDir : String) :
    List String → FS → FS × List Event
  | [], fs => (fs, [])
  | a :: rest, fs =>
      let one := download_single_sra env (strTrim a) outputDir fs
      let restR := processAccessions env outputDir rest one.1
      (restR.1, one.2 ++ restR.2)

/-- How an invocation of the batch driver terminates: normal return, or
`sys.exit` with the given status code. -/
inductive ExitStatus where
  | normal
  | exited (code : Nat)
deriving DecidableEq

/-- Embedding of `download_sra_from_csv` of `modules/downloader.py`: find the accession
column (on failure print the error and `sys.exit(1)`), resolve the accession
list, announce its length, process every accession, and print the fixed
completion message. -/
def download_sra_from_csv (env : Env) (table : Table) (outputDir : String)
    (fs : FS) : FS × List Event × ExitStatus :=
  match findAccessionCol table with
  | none =>
      (fs, [Event.msg "❌ No se encontró columna de accessions"], ExitStatus.exited 1)
  | some c =>
      let accs := resolveAccessions c.2
      let body := processAccessions env outputDir accs fs
      (body.1,
       Event.msg ("📥 Descargando " ++ toString accs.length ++ " muestras...")
         :: body.2 ++ [Event.msg "✅ Descargas completadas"],
       ExitStatus.normal)

/-- Embedding of `check_dependencies` of `modules/downloader.py`: true when none of the
required tools is missing. -/
def check_dependencies (env : Env) : Bool :=
  env.missingTools.isEmpty

/-- The `download` command of `microbiome_cli.py`: after the dependency check,
it echoes the file, the output directory and the `--accession-col` value, and
then calls `download_sra_from_csv(csv_file, output_dir)` — the source passes
the accession column option to nothing but the echo. -/
def downloadCommand (env : Env) (csvFile : String) (table : Table)
    (outputDir accessionCol : String) (fs : FS) : FS × List Event × ExitStatus :=
  if check_dependencies env then
    let r := download_sra_from_csv env table outputDir fs
    (r.1,
     [Event.msg ("📥 Descargando secuencias desde: " ++ csvFile),
      Event.msg ("📁 Directorio de salida: " ++ outputDir),
      Event.msg ("🔤 Columna de accessions: " ++ accessionCol)] ++ r.2.1,
     r.2.2)
  else
    (fs,
     [Event.msg ("❌ Herramientas faltantes: " ++ String.intercalate ", " env.missingTools),
      Event.msg "Instala SRA Toolkit: https://github.com/ncbi/sra-tools"],
     ExitStatus.normal)

/-- Python `s.startswith(pre)`, on character lists. -/
def strStartsWith (s pre : String) : Bool :=
  decide (pre.toList <+: s.toList)

/-- True when the entry lies in `outputDir` or in any subdirectory of it:
exactly the files destroyed by `shutil.rmtree(output_dir)`. -/
def dirContains (outputDir : String) (e : FileEntry) : Bool :=
  e.dir == outputDir || strStartsWith e.dir (outputDir ++ "/")

/-- Embedding of `shutil.rmtree`: remove the directory tree and every file inside it. -/
def rmtree (fs : FS) (dir : String) : FS :=
  { files := fs.files.filter (fun e => !(dirContains dir e)),
    dirs := fs.dirs.filter (fun d => !(d == dir || strStartsWith d (dir ++ "/"))) }

/-- Embedding of `os.makedirs(dir, exist_ok=True)`. -/
def makedirs (fs : FS) (dir : String) : FS :=
  if fs.dirs.contains dir then fs else { fs with dirs := dir :: fs.dirs }

/-- The output-directory prelude of `run_picrust2` in `modules/picrust2.py`
(lines 36–41): if the output directory exists, announce and `shutil.rmtree`
it, then recreate it.  The returned state is the filesystem as it stands when
the external `picrust2_pipeline.py` is later invoked — nothing between this
prelude and that invocation writes into `output_dir`. -/
def run_picrust2_prepare (fs : FS) (outputDir : String) : FS × List Event :=
  if fs.dirs.contains outputDir then
    (makedirs (rmtree fs outputDir) outputDir,
     [Event.msg ("🗑️  Eliminando directorio existente: " ++ outputDir)])
  else
    (makedirs fs outputDir, [])

/-- One diversity computation performed by `calculate_alpha_diversity`:
either the phylogenetic pipeline (`alpha_phylogenetic`) with its tree, or the
plain pipeline (`alpha`). -/
inductive AlphaCall where
  | phylo (metric tree : String)
  | nonphylo (metric : String)
deriving DecidableEq

/-- The metric loop of `calculate_alpha_diversity` in
`modules/alpha_diversity.py`: `faith_pd` without a rooted tree raises
`ValueError` (ending the loop; the calls already made stay made), `faith_pd`
with a tree uses `alpha_phylogenetic`, and every other metric uses `alpha`.
The CSV-export bookkeeping of the source is not observable here and is
omitted. -/
def calculate_alpha_diversity : List String → Option String →
    List AlphaCall × Option String
  | [], _ => ([], none)
  | m :: rest, rootedTree =>
      if m = "faith_pd" then
        match rootedTree with
        | none =>
            ([], some "La métrica \x27faith_pd\x27 requiere un árbol filogenético enraizado.")
        | some t =>
            let r := calculate_alpha_diversity rest (some t)
            (AlphaCall.phylo "faith_pd" t :: r.1, r.2)
      else
        let r := calculate_alpha_diversity rest rootedTree
        (AlphaCall.nonphylo m :: r.1, r.2)

/-- The `alpha-diversity` command of `microbiome_cli.py`: split the metric
string on commas, strip each entry, and refuse up front — before any call into
the diversity module — when `faith_pd` is requested without `--rooted-tree`;
otherwise call into the module, whose `ValueError` the `except` clause of the
command would reformat. -/
def alphaDiversityCmd (metrics : String) (rootedTree : Option String) :
    List AlphaCall × Option String :=
  let ms := (splitComma metrics).map strTrim
  if ms.contains "faith_pd" && rootedTree.isNone then
    ([], some "❌ Error: La métrica \x27faith_pd\x27 requiere un árbol filogenético enraizado. Use --rooted-tree.")
  else
    let r := calculate_alpha_diversity ms rootedTree
    (r.1, r.2.map (fun e => "❌ Error calculando diversidad alfa: " ++ e))

/-- Does this event print a message mentioning the given text? -/
def msgMentions (needle : String) : Event → Bool
  | Event.msg m => strContains m needle
  | _ => false

/-- A successful external command with empty output. -/
def toolOk : ToolResult := ⟨0, "", ""⟩

/-- A failing external command (exit 1) with empty output. -/
def toolFail : ToolResult := ⟨1, "", ""⟩

/-- World in which every tool succeeds, `sra-stat` reports no paired marker,
every deletion succeeds, and `prefetch` writes only the archive blob. -/
def envAllOk : Env :=
  { prefetch := fun _ _ => toolOk, sraStat := fun _ => toolOk,
    fasterqDry := fun _ => toolOk, fasterqSingle := fun _ => toolOk,
    fasterqPaired := fun _ => toolOk, unlinkOk := fun _ _ => true,
    prefetchAux := fun _ => [], missingTools := [] }

/-- World in which `sra-stat` reports a second read, so detection says paired. -/
def envPairedStat : Env :=
  { envAllOk with sraStat := fun _ => ⟨0, "<run read=\"2\"/>", ""⟩ }

/-- World in which retrieval succeeds but the format conversion exits 1. -/
def envConvFail : Env :=
  { envAllOk with fasterqSingle := fun _ => toolFail,
                  fasterqPaired := fun _ => toolFail }

/-- World in which `prefetch` fails (exit 1) with a diagnostic on stderr. -/
def envRetrFail : Env :=
  { envAllOk with prefetch := fun _ _ => ⟨1, "", "prefetch: network unreachable"⟩ }

/-- World in which `prefetch` fails for the accession `SRRB` only. -/
def envFailB : Env :=
  { envAllOk with prefetch := fun a _ => if a == "SRRB" then toolFail else toolOk }

/-- The empty filesystem. -/
def fs0 : FS := ⟨[], []⟩

/-- A three-accession input table whose accession column is named `run`. -/
def tableRunABC : Table :=
  ⟨[("run", [some "SRRA", some "SRRB", some "SRRC"])]⟩

/-- A table with no column matching the accession heuristic. -/
def tableNoCol : Table :=
  ⟨[("sample_id", [some "S1"]), ("library", [some "L1"])]⟩

/-- A table with a `sample_id` column and a `run_accession` column, used with
`--accession-col sample_id`. -/
def tableC4 : Table :=
  ⟨[("sample_id", [some "S1"]), ("run_accession", [some "SRR000001"])]⟩

/-- The trace of `download samples.csv --accession-col sample_id` on
`tableC4` in the all-tools-succeed world. -/
def downloadTraceC4 : List Event :=
  (downloadCommand envAllOk "samples.csv" tableC4 "data/raw" "sample_id" fs0).2.1

lemma strContains_middle (a n b c : String) :
    strContains (a ++ n ++ b ++ c) n = true := by
  unfold strContains
  rw [decide_eq_true_eq]
  have h : (a ++ n ++ b ++ c).toList =
      a.toList ++ (n.toList ++ (b.toList ++ c.toList)) := by
    simp [String.toList, String.data_append, List.append_assoc]
  rw [h]
  exact ⟨a.toList, b.toList ++ c.toList, by simp [List.append_assoc]⟩

/-- C3: the Layout Classifier returns paired exactly when (a) the
metadata-inspection tool (`sra-stat`) exits zero and its output contains
`read="2"` or `R2`, or (b) it exits non-zero and the combined stdout+stderr
of the dry-run conversion contains both `_1.fastq` and `_2.fastq`; in every other
case it returns single.  `detect_paired_end` is a total function into `Bool`
(not an exception monad): within the subprocess model, where every tool
invocation yields an exit code, it never raises. -/
theorem detect_paired_end_spec (env : Env) (f : String) :
    (detect_paired_end env f).1 = true ↔
      (((env.sraStat f).exitCode = 0 ∧
         (strContains (env.sraStat f).stdout "read=\"2\"" = true ∨
          strContains (env.sraStat f).stdout "R2" = true)) ∨
       (¬ (env.sraStat f).exitCode = 0 ∧
         (strContains ((env.fasterqDry f).stdout ++ (env.fasterqDry f).stderr) "_1.fastq" = true ∧
          strContains ((env.fasterqDry f).stdout ++ (env.fasterqDry f).stderr) "_2.fastq" = true))) := by
  unfold detect_paired_end detect_paired_end_alt
  by_cases h : (env.sraStat f).exitCode = 0 <;>
    simp [h, Bool.or_eq_true, Bool.and_eq_true]

/-- C6: when no column of the input table matches the accession heuristic,
the batch driver prints the configuration error and exits the process with
status 1, leaving the filesystem untouched and invoking nothing downstream —
the trace holds the single error message and no retrieval, classification,
conversion or cleanup event. -/
theorem no_column_aborts_without_downstream (env : Env) (table : Table)
    (outputDir : String) (fs : FS)
    (h : table.cols.all (fun c => !(isAccessionCol c.1)) = true) :
    download_sra_from_csv env table outputDir fs =
      (fs, [Event.msg "❌ No se encontró columna de accessions"],
       ExitStatus.exited 1) := by
  have hf : findAccessionCol table = none := by
    unfold findAccessionCol
    rw [List.find?_eq_none]
    intro x hx
    have hx2 := List.all_eq_true.mp h x hx
    simp only [Bool.not_eq_true'] at hx2
    simp [hx2]
  unfold download_sra_from_csv
  rw [hf]

/-- Witness for C6: a table whose columns are `sample_id` and `library`
triggers the configuration abort with no downstream calls. -/
theorem no_column_aborts_without_downstream_witness :
    download_sra_from_csv envAllOk tableNoCol "data/raw" fs0 =
      (fs0, [Event.msg "❌ No se encontró columna de accessions"],
       ExitStatus.exited 1) :=
  no_column_aborts_without_downstream envAllOk tableNoCol "data/raw" fs0 (by decide)

/-- C10: if the output directory handed to the metabolic-pathway prediction
already exists, `run_picrust2` deletes the whole tree before the external
pipeline is invoked — no file previously under that directory survives — and
it announces the deletion. -/
theorem existing_output_dir_destroyed (fs : FS) (outputDir : String)
    (h : fs.dirs.contains outputDir = true) :
    ((run_picrust2_prepare fs outputDir).1.files.all
        (fun e => !(dirContains outputDir e)) = true)
    ∧ (run_picrust2_prepare fs outputDir).2 =
        [Event.msg ("🗑️  Eliminando directorio existente: " ++ outputDir)] := by
  unfold run_picrust2_prepare makedirs rmtree
  rw [if_pos h]
  constructor
  · rw [List.all_eq_true]
    intro e he
    by_cases hd : ((rmtree fs outputDir).dirs.contains outputDir) = true <;>
      · simp only at he
        split at he <;>
        · have := List.mem_filter.mp he
          exact this.2
  · rfl

/-- Witness for C10: a pre-existing `results/picrust2` directory holding an
old result file is wiped. -/
theorem existing_output_dir_destroyed_witness :
    ((run_picrust2_prepare ⟨[⟨"results/picrust2", "old.biom"⟩], ["results/picrust2"]⟩
        "results/picrust2").1.files.all
        (fun e => !(dirContains "results/picrust2" e)) = true)
    ∧ (run_picrust2_prepare ⟨[⟨"results/picrust2", "old.biom"⟩], ["results/picrust2"]⟩
        "results/picrust2").2 =
        [Event.msg ("🗑️  Eliminando directorio existente: " ++ "results/picrust2")] :=
  existing_output_dir_destroyed
    ⟨[⟨"results/picrust2", "old.biom"⟩], ["results/picrust2"]⟩ "results/picrust2"
    (by decide)

lemma calculate_alpha_diversity_with_tree (ms : List String) (t : String) :
    calculate_alpha_diversity ms (some t) =
      (ms.map (fun m => if m = "faith_pd" then AlphaCall.phylo "faith_pd" t
                        else AlphaCall.nonphylo m), none) := by
  induction ms with
  | nil => rfl
  | cons m rest ih =>
      by_cases hm : m = "faith_pd" <;>
        simp [calculate_alpha_diversity, hm, ih]

/-- C8: an `alpha-diversity` invocation requesting `faith_pd` without a rooted
tree aborts with the configuration error before any diversity computation is
performed (the call list is empty); with a rooted tree supplied, `faith_pd` is
computed through the phylogenetic pipeline and every other requested metric
through the non-phylogenetic one. -/
theorem alpha_faith_pd_guard (metrics : String) (tree : Option String) :
    (((splitComma metrics).map strTrim).contains "faith_pd" = true → tree = none →
      alphaDiversityCmd metrics tree =
        ([], some "❌ Error: La métrica \x27faith_pd\x27 requiere un árbol filogenético enraizado. Use --rooted-tree."))
    ∧ (∀ t, tree = some t →
      alphaDiversityCmd metrics tree =
        (((splitComma metrics).map strTrim).map
           (fun m => if m = "faith_pd" then AlphaCall.phylo "faith_pd" t
                     else AlphaCall.nonphylo m), none)) := by
  constructor
  · intro hm ht
    subst ht
    simp only [alphaDiversityCmd]
    rw [hm]
    rfl
  · intro t ht
    subst ht
    simp [alphaDiversityCmd, calculate_alpha_diversity_with_tree]

/-- Witness for C8: `--metrics shannon,faith_pd` without a tree aborts with
the configuration error and no computation; with `--rooted-tree
rooted_tree.qza` it yields one non-phylogenetic and one phylogenetic call. -/
theorem alpha_faith_pd_guard_witness :
    alphaDiversityCmd "shannon,faith_pd" none =
      ([], some "❌ Error: La métrica \x27faith_pd\x27 requiere un árbol filogenético enraizado. Use --rooted-tree.")
    ∧ alphaDiversityCmd "shannon,faith_pd" (some "rooted_tree.qza") =
      ([AlphaCall.nonphylo "shannon", AlphaCall.phylo "faith_pd" "rooted_tree.qza"],
       none) := by
  constructor
  · exact (alpha_faith_pd_guard "shannon,faith_pd" none).1 (by decide) rfl
  · have h := (alpha_faith_pd_guard "shannon,faith_pd"
      (some "rooted_tree.qza")).2 "rooted_tree.qza" rfl
    rw [h]
    decide

lemma download_single_sra_prefetch_fail (env : Env) (acc outDir : String) (fs : FS)
    (h : ¬ (env.prefetch acc outDir).exitCode = 0) :
    download_single_sra env acc outDir fs =
      (fs, [Event.msg ("⬇️  Descargando " ++ acc ++ "..."),
            Event.run (prefetchArgv acc outDir),
            Event.msg ("❌ Error con " ++ acc ++ ": " ++
              cpeMessage (prefetchArgv acc outDir) (env.prefetch acc outDir).exitCode)]) := by
  simp only [download_single_sra]
  rw [if_neg h]
  rfl

lemma prefetch_event_mem (env : Env) (acc outDir : String) (fs : FS) :
    Event.run (prefetchArgv acc outDir) ∈ (download_single_sra env acc outDir fs).2 := by
  simp only [download_single_sra]
  by_cases h : (env.prefetch acc outDir).exitCode = 0
  · rw [if_pos h]
    by_cases h2 : (if (detect_paired_end env (sraPath outDir acc)).1 = true
        then env.fasterqPaired (sraPath outDir acc)
        else env.fasterqSingle (sraPath outDir acc)).exitCode = 0
    · rw [if_pos h2]; simp
    · rw [if_neg h2]; simp
  · rw [if_neg h]; simp

lemma success_msg_mem (env : Env) (acc outDir : String) (fs : FS)
    (hp : (env.prefetch acc outDir).exitCode = 0)
    (hc : (if (detect_paired_end env (sraPath outDir acc)).1 = true
           then env.fasterqPaired (sraPath outDir acc)
           else env.fasterqSingle (sraPath outDir acc)).exitCode = 0) :
    Event.msg ("✅ " ++ acc ++ " descargado, convertido y limpiado")
      ∈ (download_single_sra env acc outDir fs).2 := by
  simp only [download_single_sra]
  rw [if_pos hp, if_pos hc]
  simp

lemma processAccessions_mem (env : Env) (outDir : String) (a : String) (E : Event)
    (hev : ∀ fs : FS, E ∈ (download_single_sra env (strTrim a) outDir fs).2) :
    ∀ (l : List String) (fs : FS), a ∈ l → E ∈ (processAccessions env outDir l fs).2 := by
  intro l
  induction l with
  | nil => intro fs h; cases h
  | cons b t ih =>
      intro fs h
      simp only [processAccessions, List.mem_append]
      rcases List.mem_cons.mp h with hb | ht
      · subst hb
        exact Or.inl (hev fs)
      · exact Or.inr (ih _ ht)

/-- The conditions under which the external tools of one accession succeed:
prefetch exits zero and so does whichever conversion is dispatched. -/
def toolsOk (env : Env) (acc outDir : String) : Prop :=
  (env.prefetch acc outDir).exitCode = 0 ∧
  (env.fasterqSingle (sraPath outDir acc)).exitCode = 0 ∧
  (env.fasterqPaired (sraPath outDir acc)).exitCode = 0

/-- C2: a retrieval or conversion failure for one accession aborts only that
accession.  For every environment — in particular any in which other
accessions of the batch fail with non-zero tool exits — every accession of the
resolved batch is still attempted (its `prefetch` invocation appears in the
trace) and, when its own tools succeed, completes through cleanup (its success
message appears). -/
theorem batch_continues_after_failure (env : Env) (table : Table)
    (outDir : String) (fs : FS) (c : String × List (Option String)) (a : String)
    (hc : findAccessionCol table = some c) (ha : a ∈ resolveAccessions c.2) :
    Event.run (prefetchArgv (strTrim a) outDir)
      ∈ (download_sra_from_csv env table outDir fs).2.1
    ∧ (toolsOk env (strTrim a) outDir →
       Event.msg ("✅ " ++ strTrim a ++ " descargado, convertido y limpiado")
         ∈ (download_sra_from_csv env table outDir fs).2.1) := by
  simp only [download_sra_from_csv]
  rw [hc]
  have hbody : ∀ E : Event,
      (∀ fs2 : FS, E ∈ (download_single_sra env (strTrim a) outDir fs2).2) →
      E ∈ (processAccessions env outDir (resolveAccessions c.2) fs).2 :=
    fun E hev => processAccessions_mem env outDir a E hev (resolveAccessions c.2) fs ha
  constructor
  · have h := hbody _ (fun fs2 => prefetch_event_mem env (strTrim a) outDir fs2)
    simp [List.mem_cons, List.mem_append, h]
  · intro ht
    obtain ⟨hp, hs, hq⟩ := ht
    have hcond : (if (detect_paired_end env (sraPath outDir (strTrim a))).1 = true
        then env.fasterqPaired (sraPath outDir (strTrim a))
        else env.fasterqSingle (sraPath outDir (strTrim a))).exitCode = 0 := by
      by_cases hd : (detect_paired_end env (sraPath outDir (strTrim a))).1 = true
      · rw [if_pos hd]; exact hq
      · rw [if_neg hd]; exact hs
    have h := hbody _ (fun fs2 => success_msg_mem env (strTrim a) outDir fs2 hp hcond)
    simp [List.mem_cons, List.mem_append, h]

/-- Witness for C2: in the three-accession batch `SRRA, SRRB, SRRC` where
the retrieval of `SRRB` exits 1, accession `SRRC` is still attempted and completes
through cleanup. -/
theorem batch_continues_after_failure_witness :
    Event.run (prefetchArgv "SRRC" "raw")
      ∈ (download_sra_from_csv envFailB tableRunABC "raw" fs0).2.1
    ∧ Event.msg ("✅ SRRC descargado, convertido y limpiado")
      ∈ (download_sra_from_csv envFailB tableRunABC "raw" fs0).2.1 := by
  have h := batch_continues_after_failure envFailB tableRunABC "raw" fs0
    ("run", [some "SRRA", some "SRRB", some "SRRC"]) "SRRC" (by decide) (by decide)
  exact ⟨h.1, h.2 (by exact ⟨rfl, rfl, rfl⟩)⟩

/-- The batch trace of the three-accession table in the world where the
retrieval of `SRRB` fails: two accessions reach the cleaned state, one fails. -/
def traceFailB : List Event :=
  (download_sra_from_csv envFailB tableRunABC "raw" fs0).2.1

set_option maxRecDepth 16384 in
/-- C5 counterexample: in a concrete batch run with 2 cleaned and 1 failed
samples, the success messages and the failure message appear, but no
printed message mentions both counts — in particular no end-of-batch summary
reports the count of cleaned and the count of failed samples. -/
theorem no_summary_counts_reported :
    Event.msg "✅ SRRA descargado, convertido y limpiado" ∈ traceFailB
    ∧ Event.msg "✅ SRRC descargado, convertido y limpiado" ∈ traceFailB
    ∧ Event.msg ("❌ Error con SRRB: " ++ cpeMessage (prefetchArgv "SRRB" "raw") 1)
        ∈ traceFailB
    ∧ traceFailB.all (fun e => !(msgMentions "2" e && msgMentions "1" e)) = true := by
  decide

/-- C5 amended: the first message of the batch driver reports only the total number
of resolved accessions and its final message is the fixed string
`✅ Descargas completadas`, independent of how many samples were cleaned or
failed — no cleaned/failed counts are reported. -/
theorem batch_summary_fixed_message (env : Env) (table : Table)
    (outDir : String) (fs : FS) (c : String × List (Option String))
    (h : findAccessionCol table = some c) :
    ((download_sra_from_csv env table outDir fs).2.1.head? =
      some (Event.msg ("📥 Descargando " ++ toString (resolveAccessions c.2).length
        ++ " muestras...")))
    ∧ ((download_sra_from_csv env table outDir fs).2.1.getLast? =
      some (Event.msg "✅ Descargas completadas")) := by
  simp only [download_sra_from_csv]
  rw [h]
  refine ⟨rfl, ?_⟩
  exact List.getLast?_concat
    (Event.msg ("📥 Descargando " ++ toString (resolveAccessions c.2).length
      ++ " muestras...") :: (processAccessions env outDir (resolveAccessions c.2) fs).2)

/-- Witness for C5 amended: the concrete mixed-outcome batch starts with the
count announcement for 3 accessions and ends with the fixed completion
message. -/
theorem batch_summary_fixed_message_witness :
    traceFailB.head? = some (Event.msg "📥 Descargando 3 muestras...")
    ∧ traceFailB.getLast? = some (Event.msg "✅ Descargas completadas") := by
  have h := batch_summary_fixed_message envFailB tableRunABC "raw" fs0
    ("run", [some "SRRA", some "SRRB", some "SRRC"]) (by decide)
  exact h

set_option maxRecDepth 16384 in
/-- C1 counterexample: retrieval succeeds but the conversion tool exits 1; the
per-sample processing completes through the `except` path (the trace ends with
the error message), yet the archive blob `SRR000001.sra` is still present in
the per-accession directory — the cleanup step did not run. -/
theorem cleanup_skipped_on_conversion_failure :
    FileEntry.mk "data/raw/SRR000001" "SRR000001.sra"
      ∈ (download_single_sra envConvFail "SRR000001" "data/raw" fs0).1.files
    ∧ (download_single_sra envConvFail "SRR000001" "data/raw" fs0).2.getLast? =
      some (Event.msg ("❌ Error con SRR000001: " ++
        cpeMessage (singleArgv (sraPath "data/raw" "SRR000001") "data/raw" "SRR000001") 1))
    ∧ ∀ d n, Event.unlink d n ∉ (download_single_sra envConvFail "SRR000001" "data/raw" fs0).2 := by
  refine ⟨by decide, by decide, ?_⟩
  intro d n hmem
  have : (download_single_sra envConvFail "SRR000001" "data/raw" fs0).2.all
      (fun e => match e with | Event.unlink _ _ => false | _ => true) = true := by decide
  have h2 := List.all_eq_true.mp this _ hmem
  simp at h2

/-- C1 amended: the archive blob and auxiliary cache files are removed only on
the success path — when retrieval and the dispatched conversion both succeed
(and each deletion succeeds), no `.sra`, `.csi` or `.vdbcache` file remains in
the per-accession directory after processing of the sample completes.  (The
counterexample shows the cleanup is skipped when conversion fails: it is not a
finalizer.) -/
theorem cleanup_after_successful_conversion (env : Env) (acc outDir : String)
    (fs : FS)
    (hp : (env.prefetch acc outDir).exitCode = 0)
    (hs : (env.fasterqSingle (sraPath outDir acc)).exitCode = 0)
    (hq : (env.fasterqPaired (sraPath outDir acc)).exitCode = 0)
    (hu : ∀ n, env.unlinkOk (outDir ++ "/" ++ acc) n = true) :
    (download_single_sra env acc outDir fs).1.files.all
      (fun e => !(e.dir == outDir ++ "/" ++ acc &&
        (strEndsWith e.name ".sra" || strEndsWith e.name ".csi" ||
         strEndsWith e.name ".vdbcache"))) = true := by
  have hcond : (if (detect_paired_end env (sraPath outDir acc)).1 = true
      then env.fasterqPaired (sraPath outDir acc)
      else env.fasterqSingle (sraPath outDir acc)).exitCode = 0 := by
    by_cases hd : (detect_paired_end env (sraPath outDir acc)).1 = true
    · rw [if_pos hd]; exact hq
    · rw [if_neg hd]; exact hs
  simp only [download_single_sra]
  rw [if_pos hp, if_pos hcond]
  simp only [cleanup_sra_files]
  rw [List.all_eq_true]
  intro e he
  have h2 := (List.mem_filter.mp he).2
  by_cases hdir : (e.dir == outDir ++ "/" ++ acc) = true
  · have hdir2 : e.dir = outDir ++ "/" ++ acc := by
      exact eq_of_beq hdir
    simp only [cleanupRemoves, hdir, hdir2, hu, Bool.true_and, Bool.and_true,
      Bool.not_eq_true', beq_self_eq_true] at h2
    simp only [Bool.or_eq_false_iff] at h2
    simp [hdir, h2.1.1, h2.1.2, h2.2]
  · have hdir2 : (e.dir == outDir ++ "/" ++ acc) = false := by
      exact Bool.not_eq_true _ ▸ (by simpa using hdir)
    simp [hdir2]

/-- Witness for C1 amended: in the all-tools-succeed world, after processing
`SRR000001` no archive or cache file remains in its directory. -/
theorem cleanup_after_successful_conversion_witness :
    (download_single_sra envAllOk "SRR000001" "data/raw" fs0).1.files.all
      (fun e => !(e.dir == "data/raw" ++ "/" ++ "SRR000001" &&
        (strEndsWith e.name ".sra" || strEndsWith e.name ".csi" ||
         strEndsWith e.name ".vdbcache"))) = true :=
  cleanup_after_successful_conversion envAllOk "SRR000001" "data/raw" fs0
    rfl rfl rfl (fun _ => rfl)

/-- C7: the Format Converter dispatches on the Layout Classification — when
the classifier says paired, the trace contains the conversion invocation with
the `--split-files` flag, and when it says single, with the `--skip-technical`
flag; in both cases the `--outdir` argument is the per-accession directory
`{output_root}/{accession}`. -/
theorem converter_dispatch_flags (env : Env) (acc outDir : String) (fs : FS)
    (hp : (env.prefetch acc outDir).exitCode = 0) :
    ((detect_paired_end env (sraPath outDir acc)).1 = true →
      Event.run ["fasterq-dump", sraPath outDir acc, "--outdir",
        outDir ++ "/" ++ acc, "--split-files", "--threads", "2"]
        ∈ (download_single_sra env acc outDir fs).2)
    ∧ ((detect_paired_end env (sraPath outDir acc)).1 = false →
      Event.run ["fasterq-dump", sraPath outDir acc, "--outdir",
        outDir ++ "/" ++ acc, "--skip-technical", "--threads", "2"]
        ∈ (download_single_sra env acc outDir fs).2) := by
  constructor
  · intro hd
    simp only [download_single_sra]
    rw [if_pos hp]
    by_cases hc : (if (detect_paired_end env (sraPath outDir acc)).1 = true
        then env.fasterqPaired (sraPath outDir acc)
        else env.fasterqSingle (sraPath outDir acc)).exitCode = 0
    · rw [if_pos hc]; simp [hd, pairedArgv]
    · rw [if_neg hc]; simp [hd, pairedArgv]
  · intro hd
    simp only [download_single_sra]
    rw [if_pos hp]
    by_cases hc : (if (detect_paired_end env (sraPath outDir acc)).1 = true
        then env.fasterqPaired (sraPath outDir acc)
        else env.fasterqSingle (sraPath outDir acc)).exitCode = 0
    · rw [if_pos hc]; simp [hd, singleArgv]
    · rw [if_neg hc]; simp [hd, singleArgv]

/-- Witness for C7: in a world where `sra-stat` reports a second read the
trace holds the `--split-files` invocation; in the no-marker world it holds
the `--skip-technical` invocation. -/
theorem converter_dispatch_flags_witness :
    Event.run ["fasterq-dump", sraPath "data/raw" "SRR000001", "--outdir",
      "data/raw" ++ "/" ++ "SRR000001", "--split-files", "--threads", "2"]
      ∈ (download_single_sra envPairedStat "SRR000001" "data/raw" fs0).2
    ∧ Event.run ["fasterq-dump", sraPath "data/raw" "SRR000002", "--outdir",
      "data/raw" ++ "/" ++ "SRR000002", "--skip-technical", "--threads", "2"]
      ∈ (download_single_sra envAllOk "SRR000002" "data/raw" fs0).2 :=
  ⟨(converter_dispatch_flags envPairedStat "SRR000001" "data/raw" fs0 rfl).1 (by decide),
   (converter_dispatch_flags envAllOk "SRR000002" "data/raw" fs0 rfl).2 (by decide)⟩

set_option maxRecDepth 16384 in
/-- C9 counterexample: `prefetch` for `SRR000001` exits 1 with the diagnostic
`prefetch: network unreachable` on its captured stderr; the surfaced error
message exists but no printed message of the run mentions that diagnostic
text — the raw stdout/stderr of the tool is not included in the surfaced error. -/
theorem error_message_omits_diagnostics :
    Event.msg ("❌ Error con SRR000001: " ++
        cpeMessage (prefetchArgv "SRR000001" "data/raw") 1)
      ∈ (download_single_sra envRetrFail "SRR000001" "data/raw" fs0).2
    ∧ (download_single_sra envRetrFail "SRR000001" "data/raw" fs0).2.all
        (fun e => !(msgMentions "network unreachable" e)) = true := by
  decide

/-- C9 amended: on a retrieval failure, and likewise on a conversion failure,
the surfaced message is `❌ Error con {accession}: ` followed by
`str(CalledProcessError)` — it names the accession (which occurs in the
message as a substring) and the failing command with its exit status, and is
built from the exit code and argument vector alone, so it carries none of the
captured stdout/stderr of the tool. -/
theorem error_message_names_accession_and_command (env : Env)
    (acc outDir : String) (fs : FS) :
    ((¬ (env.prefetch acc outDir).exitCode = 0) →
      Event.msg ("❌ Error con " ++ acc ++ ": " ++
          cpeMessage (prefetchArgv acc outDir) (env.prefetch acc outDir).exitCode)
        ∈ (download_single_sra env acc outDir fs).2
      ∧ strContains ("❌ Error con " ++ acc ++ ": " ++
          cpeMessage (prefetchArgv acc outDir) (env.prefetch acc outDir).exitCode)
          acc = true)
    ∧ ((env.prefetch acc outDir).exitCode = 0 →
       ¬ (if (detect_paired_end env (sraPath outDir acc)).1 = true
          then env.fasterqPaired (sraPath outDir acc)
          else env.fasterqSingle (sraPath outDir acc)).exitCode = 0 →
      Event.msg ("❌ Error con " ++ acc ++ ": " ++
          cpeMessage (if (detect_paired_end env (sraPath outDir acc)).1 = true
                      then pairedArgv (sraPath outDir acc) outDir acc
                      else singleArgv (sraPath outDir acc) outDir acc)
            (if (detect_paired_end env (sraPath outDir acc)).1 = true
             then env.fasterqPaired (sraPath outDir acc)
             else env.fasterqSingle (sraPath outDir acc)).exitCode)
        ∈ (download_single_sra env acc outDir fs).2
      ∧ strContains ("❌ Error con " ++ acc ++ ": " ++
          cpeMessage (if (detect_paired_end env (sraPath outDir acc)).1 = true
                      then pairedArgv (sraPath outDir acc) outDir acc
                      else singleArgv (sraPath outDir acc) outDir acc)
            (if (detect_paired_end env (sraPath outDir acc)).1 = true
             then env.fasterqPaired (sraPath outDir acc)
             else env.fasterqSingle (sraPath outDir acc)).exitCode)
          acc = true) := by
  constructor
  · intro h
    refine ⟨?_, strContains_middle "❌ Error con " acc ": " _⟩
    rw [download_single_sra_prefetch_fail env acc outDir fs h]
    simp
  · intro hp hc
    refine ⟨?_, strContains_middle "❌ Error con " acc ": " _⟩
    simp only [download_single_sra]
    rw [if_pos hp, if_neg hc]
    simp

/-- Witness for C9 amended: the failing-retrieval world surfaces the message
naming `SRR000001`, and the accession occurs in it as a substring. -/
theorem error_message_names_accession_and_command_witness :
    Event.msg ("❌ Error con SRR000001: " ++
        cpeMessage (prefetchArgv "SRR000001" "data/raw") 1)
      ∈ (download_single_sra envRetrFail "SRR000001" "data/raw" fs0).2
    ∧ strContains ("❌ Error con SRR000001: " ++
        cpeMessage (prefetchArgv "SRR000001" "data/raw") 1) "SRR000001" = true :=
  (error_message_names_accession_and_command envRetrFail "SRR000001" "data/raw"
    fs0).1 (by decide)

set_option maxRecDepth 16384 in
/-- C4: the `download` command invoked with `--accession-col sample_id` on a
table holding both a `sample_id` and a `run_accession` column echoes the
requested column but retrieves the values of `run_accession` (found by the
heuristic scan) and never those of `sample_id`: the explicit option is
accepted and then ignored, contradicting the help text and echo of the command itself. -/
theorem accession_col_option_ignored :
    Event.msg "🔤 Columna de accessions: sample_id" ∈ downloadTraceC4
    ∧ Event.run (prefetchArgv "SRR000001" "data/raw") ∈ downloadTraceC4
    ∧ Event.run (prefetchArgv "S1" "data/raw") ∉ downloadTraceC4 := by
  refine ⟨by decide, by decide, ?_⟩
  intro hmem
  have h : downloadTraceC4.all
      (fun e => !(e == Event.run (prefetchArgv "S1" "data/raw"))) = true := by decide
  have h2 := List.all_eq_true.mp h _ hmem
  simp at h2
